import Mathlib

/-!
Verification of the element-resolution / caching protocol and the
table-parsing subsystem of the combo-e2e page-object framework.

The Python source is embedded shallowly:
  * `lxml` HTML elements become the inductive `HtmlElement` (tag, text,
    attribute list in document order, children);
  * Python dicts keyed by strings become insertion-ordered association
    lists with overwrite-on-existing-key semantics;
  * Python exceptions become the `PyError` inductive, with helper
    predicates mirroring the `isinstance` checks of `except` clauses;
  * fallible code returns `Except PyError α`.
-/

namespace ComboE2E

/-- A Python exception value, flattened.  The selenium / combo-e2e class
hierarchy (TableRowNotFound < TableElementNotFound < BaseTableException,
NoSuchElementException < WebDriverException, etc.) is recovered by the
`is...` predicates below, which mirror `except Klass` dispatch. -/
inductive PyError where
  | valueError (msg : String)
  | typeError (msg : String)
  | noSuchElementException (msg : String)
  | staleElementReferenceException (msg : String)
  | timeoutException (msg : String)
  | webDriverException (msg : String)
  | webElementProxyException (msg : String) (element : String)
  | basePageException (msg : String)
  | pageNotOpened (msg : String)
  | baseTableException (msg : String)
  | tableElementNotFound (msg : String)
  | tableRowNotFound (msg : String)
  | tableColumnNotFound (msg : String)
  deriving Repr, DecidableEq

/-- `except TableElementNotFound` catches the class and its subclasses
`TableRowNotFound` and `TableColumnNotFound`. -/
def PyError.is_table_element_not_found : PyError → Bool
  | .tableElementNotFound _ => true
  | .tableRowNotFound _ => true
  | .tableColumnNotFound _ => true
  | _ => false

/-- `except NoSuchElementException` (no subclasses used here). -/
def PyError.is_no_such_element : PyError → Bool
  | .noSuchElementException _ => true
  | _ => false

/-- `except TypeError`. -/
def PyError.is_type_error : PyError → Bool
  | .typeError _ => true
  | _ => false

/-! ## HTML model (lxml.html.HtmlElement)

Only the accessors the parsers use are modelled: `.tag`, `.text`
(text content before the first child, `none` when absent), `.items()`
(attributes in document order), `.get(name)`, `.iterchildren()`. -/

/-- An lxml HTML element: tag, text, attributes (document order), children. -/
inductive HtmlElement where
  | mk (tag : String) (text : Option String) (attrs : List (String × String))
       (children : List HtmlElement)

def HtmlElement.tag : HtmlElement → String
  | .mk t _ _ _ => t

def HtmlElement.text : HtmlElement → Option String
  | .mk _ tx _ _ => tx

/-- `element.items()`: the attribute list in document order. -/
def HtmlElement.items : HtmlElement → List (String × String)
  | .mk _ _ a _ => a

/-- `element.get(name)`: attribute lookup. -/
def HtmlElement.get (e : HtmlElement) (name : String) : Option String :=
  e.items.lookup name

/-- `element.iterchildren()`. -/
def HtmlElement.iterchildren : HtmlElement → List HtmlElement
  | .mk _ _ _ c => c

/-- `html.fragments_fromstring` yields a mix of bare strings and elements. -/
inductive Fragment where
  | str (s : String)
  | elem (e : HtmlElement)

/-! ## Insertion-ordered string-keyed dictionaries

Python `dict` semantics: assignment to an existing key overwrites in
place, assignment to a fresh key appends; `defaultdict(dict)` creates
the inner dict on first write to an outer key. -/

/-- Inner dict of `parse_table_thead`: lookup value -> 1-based column. -/
abbrev ColDict := List (String × Nat)

/-- Outer `defaultdict(dict)`: lookup key -> inner dict. -/
abbrev TheadRes := List (String × ColDict)

/-- Python dict assignment `d[k] = v` on a string-keyed dict. -/
def dictInsert : ColDict → String → Nat → ColDict
  | [], k, v => [(k, v)]
  | (k0, v0) :: rest, k, v =>
      if k0 = k then (k, v) :: rest else (k0, v0) :: dictInsert rest k v

/-- `res[k1][k2] = v` on a `defaultdict(dict)`. -/
def resInsert : TheadRes → String → String → Nat → TheadRes
  | [], k1, k2, v => [(k1, [(k2, v)])]
  | (k0, d0) :: rest, k1, k2, v =>
      if k0 = k1 then (k0, dictInsert d0 k2 v) :: rest
      else (k0, d0) :: resInsert rest k1 k2 v

/-- Two-level lookup: `res.get(k1, \x7b\x7d).get(k2)`. -/
def resGet2 (res : TheadRes) (k1 k2 : String) : Option Nat :=
  match res.lookup k1 with
  | none => none
  | some d => d.lookup k2

/-! ## parsers.py -/

/-- Digit-sequence accumulator for `py_int`. -/
def py_digits : List Char → Option Nat → Option Nat
  | [], acc => acc
  | c :: cs, acc =>
      if c.isDigit then
        py_digits cs (some ((acc.getD 0) * 10 + (c.toNat - 48)))
      else none

/-- Python `int(s)`: optional surrounding whitespace, optional sign, a
non-empty digit run; anything else raises `ValueError` (here: `none`). -/
def py_int (s : String) : Option Int :=
  let core := fun (l : List Char) =>
    match l with
    | '-' :: rest => (py_digits rest none).map (fun n => -(n : Int))
    | '+' :: rest => (py_digits rest none).map (fun n => (n : Int))
    | rest => (py_digits rest none).map (fun n => (n : Int))
  core ((s.data.dropWhile (fun c => c.isWhitespace)).reverse.dropWhile
          (fun c => c.isWhitespace)).reverse

/-- Python `str.isspace` characters relevant to `str.strip()`. -/
def py_isspace (c : Char) : Bool :=
  c = ' ' || c = '\t' || c = '\n' || c = '\r' || c = '\x0b' || c = '\x0c'

/-- Python `s.strip()`: drop whitespace from both ends. -/
def py_strip (s : String) : String :=
  ⟨((s.data.dropWhile py_isspace).reverse.dropWhile py_isspace).reverse⟩

/-- Python `s.replace("\n", "")`: remove every newline character. -/
def py_drop_newlines (s : String) : String :=
  ⟨s.data.filter (fun c => c ≠ '\n')⟩

/-- `format_tag_text`: `None` becomes the literal string "None"; the text
is stripped of surrounding whitespace and interior newlines removed. -/
def format_tag_text (text : Option String) : String :=
  py_drop_newlines (py_strip (match text with
                              | none => "None"
                              | some t => t))

/-- One iteration of the cell loop of `parse_table_thead`: state is the
result-so-far and the running 1-based column counter.  A cell whose
`colspan` attribute is truthy and parses to an int > 1 is skipped;
otherwise a `th` cell records its formatted text (duplicate text is a
`ValueError`) and every tracked attribute with a truthy value, then
increments the counter. -/
def processCell (tag_text_key : String) (attributes : List String)
    (st : TheadRes × Nat) (item : HtmlElement) : Except String (TheadRes × Nat) :=
  let res := st.1
  let index := st.2
  let genuine : Except String (TheadRes × Nat) :=
    if item.tag = "th" then
      let formatted_key := format_tag_text item.text
      match resGet2 res tag_text_key formatted_key with
      | some _ =>
          .error ("Duplicate value=" ++ formatted_key ++ " of th.text in header of table")
      | none =>
          let res1 := resInsert res tag_text_key formatted_key index
          let res2 :=
            if attributes.isEmpty then res1
            else item.items.foldl
              (fun acc p =>
                if p.2 ≠ "" && attributes.contains p.1 then
                  resInsert acc p.1 p.2 index
                else acc) res1
          .ok (res2, index + 1)
    else .ok (res, index)
  match item.get "colspan" with
  | none => genuine
  | some cs =>
      if cs = "" then genuine
      else
        match py_int cs with
        | none => .error ("invalid literal for int with base 10: " ++ cs)
        | some k => if k > 1 then .ok (res, index) else genuine

/-- The cell loop of `parse_table_thead` over one row's children. -/
def parseCells (tag_text_key : String) (attributes : List String) :
    TheadRes × Nat → List HtmlElement → Except String (TheadRes × Nat)
  | st, [] => .ok st
  | st, c :: cs =>
      match processCell tag_text_key attributes st c with
      | .error e => .error e
      | .ok st1 => parseCells tag_text_key attributes st1 cs

/-- The row loop of `parse_table_thead`. -/
def parseRows (tag_text_key : String) (attributes : List String) :
    TheadRes × Nat → List HtmlElement → Except String (TheadRes × Nat)
  | st, [] => .ok st
  | st, tr :: trs =>
      match parseCells tag_text_key attributes st tr.iterchildren with
      | .error e => .error e
      | .ok st1 => parseRows tag_text_key attributes st1 trs

/-- Collection of `tr_elements`: strings are skipped, a `div` contributes
its `tr` children (one level of grouping container flattened), a bare
`tr` contributes itself, anything else is ignored. -/
def collect_tr : List Fragment → List HtmlElement
  | [] => []
  | .str _ :: rest => collect_tr rest
  | .elem e :: rest =>
      (if e.tag = "div" then e.iterchildren.filter (fun c => c.tag = "tr")
       else if e.tag = "tr" then [e]
       else []) ++ collect_tr rest

/-- `parse_table_thead`: builds the two-level index map from the header
fragments.  No `tr` rows at all is a `ValueError`. -/
def parse_table_thead (frags : List Fragment) (tag_text_key : String)
    (attributes : List String) : Except String TheadRes :=
  if (collect_tr frags).isEmpty then .error "Table format could be changed"
  else
    match parseRows tag_text_key attributes ([], 1) (collect_tr frags) with
    | .error e => .error e
    | .ok st => .ok st.1

/-- `parse_table_row`: the row element must be a `tr`; each child cell
contributes its stripped text, or `none` when the text is falsy. -/
def parse_table_row (obj : HtmlElement) : Except PyError (List (Option String)) :=
  if obj.tag ≠ "tr" then .error (.valueError "It parse only tr tag content")
  else .ok (obj.iterchildren.map
    (fun cell =>
      match cell.text with
      | none => none
      | some t => if t ≠ "" then some (py_strip t) else none))

/-- `parse_table_cell`: the element must be a `td`; yields its stripped
text, or `none` when the text is falsy. -/
def parse_table_cell (cell : HtmlElement) : Except PyError (Option String) :=
  if cell.tag ≠ "td" then .error (.valueError "It parse only td tag content")
  else .ok (match cell.text with
            | none => none
            | some t => if t ≠ "" then some (py_strip t) else none)

/-- A header row fragment: a bare `tr` element holding the given cells. -/
def mk_tr (cells : List HtmlElement) : Fragment :=
  .elem (.mk "tr" none [] cells)

/-- A group-label cell: `colspan` present, truthy, and parsing to an
integer greater than 1 (the skip condition of `parse_table_thead`). -/
def is_group_label (item : HtmlElement) : Prop :=
  ∃ cs k, item.get "colspan" = some cs ∧ cs ≠ "" ∧ py_int cs = some k ∧ k > 1

/-! ## table.py -/

/-- Python `list.index(v)`: 0-based position of the first equal element,
`ValueError` when the value is absent.  Column cell values are parsed
texts, i.e. `Option String` (a cell with falsy text is `None`). -/
def list_index (xs : List (Option String)) (v : Option String) : Except PyError Nat :=
  match xs with
  | [] => .error (.valueError "is not in list")
  | x :: rest =>
      if x = v then .ok 0
      else
        match list_index rest v with
        | .ok i => .ok (i + 1)
        | .error e => .error e

/-- `Column.get_index_by_value`: `self.values().index(value) + 1` inside
`try`, with `except TypeError` mapped to `TableElementNotFound`.  Every
other exception (in particular the `ValueError` that `list.index` raises
on a missing value) propagates unchanged. -/
def get_index_by_value (values : List (Option String)) (v : String) :
    Except PyError Nat :=
  match list_index values (some v) with
  | .ok i => .ok (i + 1)
  | .error e =>
      if e.is_type_error then
        .error (.tableElementNotFound "Cell with given value doesnt exist in the column")
      else .error e

/-- The state of a `Column` descriptor relevant to index lookup:
`visible_name` plus the optional attribute-based search pair. -/
structure ColumnSpec where
  visible_name : String
  search_attr_name : Option String
  search_attr_value : Option String
  deriving Repr, DecidableEq

/-- Python truthiness of an `Optional[str]`. -/
def truthy_opt : Option String → Bool
  | none => false
  | some s => s ≠ ""

/-- `columns_indexes.get(k1, \x7b\x7d).get(k2)` where `k1` may be `None`
(never a key of the string-keyed outer dict). -/
def resGet2_opt (res : TheadRes) (k1 : Option String) (k2 : String) : Option Nat :=
  match k1 with
  | none => none
  | some k => resGet2 res k k2

/-- `Table.get_column_index`: when the column carries a truthy attribute
value, the two-level map lookup result is returned as-is (possibly
`None`, no exception); otherwise the visible-text lookup result is
returned, and a falsy result raises `BaseTableException`. -/
def get_column_index (columns_indexes : TheadRes) (tag_text_key : String)
    (c : ColumnSpec) : Except PyError (Option Nat) :=
  if truthy_opt c.search_attr_value then
    .ok (resGet2_opt columns_indexes c.search_attr_name
           ((c.search_attr_value).getD ""))
  else
    match resGet2 columns_indexes tag_text_key c.visible_name with
    | none => .error (.baseTableException "Cannot find index of column in table")
    | some i =>
        if i = 0 then .error (.baseTableException "Cannot find index of column in table")
        else .ok (some i)

/-- Relative xpath of row `index` inside the body, `//tbody//tr[index]`. -/
def get_body_row_xpath (index : Nat) : String :=
  "//tbody" ++ "//tr[" ++ toString index ++ "]"

/-- Relative xpath of row `index` inside the header, `//thead//tr[index]`. -/
def get_header_xpath (index : Nat) : String :=
  "//thead" ++ "//tr[" ++ toString index ++ "]"

/-- Relative xpath of the cells of column `index`, `//tr/td[index]`. -/
def r_xpath_column (index : Nat) : String :=
  "//tr" ++ "/td[" ++ toString index ++ "]"

/-- `Table.get_item_by_xpath`: prepend the table locator, delegate to the
find-element collaborator, and turn `NoSuchElementException` into
`TableElementNotFound`; other failures propagate. -/
def get_item_by_xpath (find_element : String → Except PyError HtmlElement)
    (table_value xpath : String) : Except PyError HtmlElement :=
  match find_element (table_value ++ xpath) with
  | .ok el => .ok el
  | .error e =>
      if e.is_no_such_element then
        .error (.tableElementNotFound
          ("Element not found by xpath value: " ++ (table_value ++ xpath)))
      else .error e

/-- `Table.get_items_by_xpath`: the plural variant. -/
def get_items_by_xpath (find_elements : String → Except PyError (List HtmlElement))
    (table_value xpath : String) : Except PyError (List HtmlElement) :=
  match find_elements (table_value ++ xpath) with
  | .ok els => .ok els
  | .error e =>
      if e.is_no_such_element then
        .error (.tableElementNotFound
          ("Elements not found by xpath value: " ++ (table_value ++ xpath)))
      else .error e

/-- `Table._get_row_values_by_index`: locate the row (header or body),
turning a `TableElementNotFound` (or subclass) into `TableRowNotFound`,
then parse the row markup. -/
def get_row_values_by_index (find_element : String → Except PyError HtmlElement)
    (table_value : String) (index : Nat) (for_header : Bool) :
    Except PyError (List (Option String)) :=
  match get_item_by_xpath find_element table_value
          (if for_header then get_header_xpath index else get_body_row_xpath index) with
  | .ok row => parse_table_row row
  | .error e =>
      if e.is_table_element_not_found then
        .error (.tableRowNotFound
          ("Row with index " ++ toString index ++ " not found in table"))
      else .error e

/-- Helper for the cell-parsing list comprehension of
`get_column_values_by_index`: the first parse failure propagates. -/
def parse_cells_list : List HtmlElement → Except PyError (List (Option String))
  | [] => .ok []
  | c :: cs =>
      match parse_table_cell c with
      | .error e => .error e
      | .ok v =>
          match parse_cells_list cs with
          | .error e => .error e
          | .ok vs => .ok (v :: vs)

/-- `Table.get_column_values_by_index`: an index beyond the parsed real
column count raises `TableColumnNotFound`; a `TableElementNotFound` from
the cell query is swallowed into an empty cell list. -/
def get_column_values_by_index
    (find_elements : String → Except PyError (List HtmlElement))
    (table_value : String) (real_column_count : Nat) (index : Nat) :
    Except PyError (List (Option String)) :=
  if index > real_column_count then
    .error (.tableColumnNotFound
      ("Column with index " ++ toString index ++ " not exists in table"))
  else
    match get_items_by_xpath find_elements table_value (r_xpath_column index) with
    | .ok cells => parse_cells_list cells
    | .error e =>
        if e.is_table_element_not_found then parse_cells_list []
        else .error e

/-! ## base_abstract.py and base_attributes.py: pages, caching, proxies

Raw remote element references are abstracted as numeric ids; the
underlying locator query of a binding is the environment parameter
`find` (deterministic within one navigation epoch).  `PageState` carries
an instrumentation counter of underlying `_find_element` queries, which
the embedding increments exactly where the Python issues a driver call. -/

/-- `_cached_attrs`: the per-page-instance cache, slot name to handle id. -/
abbrev ElementCache := List (String × Nat)

/-- Python dict assignment `cache[k] = v`. -/
def cacheInsert : ElementCache → String → Nat → ElementCache
  | [], k, v => [(k, v)]
  | (k0, v0) :: rest, k, v =>
      if k0 = k then (k, v) :: rest else (k0, v0) :: cacheInsert rest k v

/-- Python `cache.pop(k, None)`. -/
def cachePop : ElementCache → String → ElementCache
  | [], _ => []
  | (k0, v0) :: rest, k => if k0 = k then rest else (k0, v0) :: cachePop rest k

/-- Page-instance state: whether `check_opened` passes, the binding
cache, the open browser tabs (in opening order) and the focused tab,
plus the query counter. -/
structure PageState where
  opened : Bool
  cache : ElementCache
  tabs : List Nat
  focused : Nat
  queryCount : Nat
  deriving Repr, DecidableEq

/-- `AbstractBasePage._find_element`, instrumented: every call is one
underlying locator query against the driver. -/
def find_element_q (find : Except PyError Nat) (st : PageState) :
    Except PyError (Nat × PageState) :=
  match find with
  | .error e => .error e
  | .ok h => .ok (h, { st with queryCount := st.queryCount + 1 })

/-- `ElementDescriptor.__get__` for a single-cardinality binding:
`check_opened`, then return the cached handle when the slot is filled,
otherwise run the locator query once and memoize the resulting proxy
under the slot name. -/
def descriptor_get (find : Except PyError Nat) (name : String) (st : PageState) :
    Except PyError (Nat × PageState) :=
  if st.opened then
    match st.cache.lookup name with
    | some h => .ok (h, st)
    | none =>
        match find_element_q find st with
        | .error e => .error e
        | .ok (h, st1) => .ok (h, { st1 with cache := cacheInsert st1.cache name h })
  else .error (.pageNotOpened "Page not opened")

/-- Repeated accesses of the same slot: `access_iter find name st n` is
the result of the (n+1)-th access, each one running on the state the
previous access produced. -/
def access_iter (find : Except PyError Nat) (name : String) (st : PageState) :
    Nat → Except PyError (Nat × PageState)
  | 0 => descriptor_get find name st
  | n + 1 =>
      match access_iter find name st n with
      | .error e => .error e
      | .ok (_, st1) => descriptor_get find name st1

/-- `AbstractBasePage._open`: the cache is emptied, then the driver
navigates (the page-loaded wait is external and does not touch state). -/
def open_url (st : PageState) : PageState :=
  { st with cache := [] }

/-- `AbstractBasePage.open_redirect_url`: empties the cache, then navigates. -/
def open_redirect_url (st : PageState) : PageState :=
  { st with cache := [] }

/-- `AbstractBasePage.focus_on_last_opened_tab`: with more than one open
tab, empties the cache, closes every tab except the last opened one and
moves focus there; with a single tab it does nothing. -/
def focus_on_last_opened_tab (st : PageState) : PageState :=
  if st.tabs.length > 1 then
    { st with cache := [], tabs := [st.tabs.getLastD 0],
              focused := st.tabs.getLastD 0 }
  else st

/-- `AbstractBasePage.focus_on_first_opened_tab`: the first-tab variant. -/
def focus_on_first_opened_tab (st : PageState) : PageState :=
  if st.tabs.length > 1 then
    { st with cache := [], tabs := [st.tabs.headD 0],
              focused := st.tabs.headD 0 }
  else st

/-- `WebElementProxy.click`: waits until the element is clickable (the
wait raises `TimeoutException` if that never happens, and then no click
is performed), performs the raw click — whose side effect is the list
of tabs it opens — and then, with the default flag, focuses the last
opened tab. -/
def proxy_click (clickable : Bool) (opensTabs : List Nat)
    (focus_on_opened_tab : Bool) (st : PageState) : Except PyError PageState :=
  if clickable then
    let st1 := { st with tabs := st.tabs ++ opensTabs }
    if focus_on_opened_tab then .ok (focus_on_last_opened_tab st1)
    else .ok st1
  else .error (.timeoutException "element not clickable")

/-- Outcome of one attempt of a proxied raw-element operation, as the
selenium layer reports it. -/
inductive OpOutcome (α : Type) where
  | ok (a : α)
  | stale (msg : String)
  | noSuchElement (msg : String)
  | otherWebDriverError (msg : String)

/-- `WebElementProxy._reload_target_object` acting on the owning page's
cache: drop the slot when it is filled, re-run the stored locator, and
on success store the replacement and re-memoize the proxy. -/
def reload_target_object (find : Except PyError Nat) (attr_name : Option String)
    (cache : ElementCache) : Except PyError Nat × ElementCache :=
  let cache1 :=
    match attr_name with
    | some n => if n ≠ "" && (cache.lookup n).isSome then cachePop cache n else cache
    | none => cache
  match find with
  | .error e => (.error e, cache1)
  | .ok h =>
      match attr_name with
      | some n => if n ≠ "" then (.ok h, cacheInsert cache1 n h) else (.ok h, cache1)
      | none => (.ok h, cache1)

/-- `current_obj.attr_name or "Object didnt attach to Page"`. -/
def attr_or_default : Option String → String
  | some n => if n ≠ "" then n else "Object didnt attach to Page"
  | none => "Object didnt attach to Page"

/-- The `catch_not_attach_to_session` decorator applied to one call of a
proxied operation.  `op i` is the outcome of the (i+1)-th attempt.
Returns the caller-visible result, the final cache, the number of
re-resolutions performed and the number of attempts made: the first
attempt's staleness triggers one reload and one retry whose outcome —
success, staleness, or anything else — is final; a first-attempt
`NoSuchElementException` re-raises unchanged; any other first-attempt
`WebDriverException` is wrapped into `WebElementProxyException` carrying
the slot name or the generic marker. -/
def catch_not_attach_to_session (op : Nat → OpOutcome α)
    (find : Except PyError Nat) (attr_name : Option String)
    (cache : ElementCache) : Except PyError α × ElementCache × Nat × Nat :=
  match op 0 with
  | .ok a => (.ok a, cache, 0, 1)
  | .noSuchElement m => (.error (.noSuchElementException m), cache, 0, 1)
  | .otherWebDriverError m =>
      (.error (.webElementProxyException m (attr_or_default attr_name)), cache, 0, 1)
  | .stale _ =>
      match reload_target_object find attr_name cache with
      | (.error e, cache1) => (.error e, cache1, 1, 1)
      | (.ok _, cache2) =>
          match op 1 with
          | .ok a => (.ok a, cache2, 1, 2)
          | .stale m => (.error (.staleElementReferenceException m), cache2, 1, 2)
          | .noSuchElement m => (.error (.noSuchElementException m), cache2, 1, 2)
          | .otherWebDriverError m => (.error (.webDriverException m), cache2, 1, 2)

end ComboE2E

namespace ComboE2E

theorem processCell_group (ttk : String) (attrs : List String)
    (st : TheadRes × Nat) (c : HtmlElement) (h : is_group_label c) :
    processCell ttk attrs st c = .ok st := by
  obtain ⟨cs, k, hget, hne, hint, hk⟩ := h
  unfold processCell
  rw [hget]
  simp [hne, hint, hk]

theorem parseCells_append (ttk : String) (attrs : List String)
    (st : TheadRes × Nat) (xs ys : List HtmlElement) :
    parseCells ttk attrs st (xs ++ ys) =
      match parseCells ttk attrs st xs with
      | .error e => .error e
      | .ok st1 => parseCells ttk attrs st1 ys := by
  induction xs generalizing st with
  | nil => simp [parseCells]
  | cons c cs ih =>
      simp only [List.cons_append, parseCells]
      cases processCell ttk attrs st c with
      | error e => rfl
      | ok st1 => exact ih st1

theorem parseCells_group_skip (ttk : String) (attrs : List String)
    (st : TheadRes × Nat) (xs ys : List HtmlElement) (c : HtmlElement)
    (h : is_group_label c) :
    parseCells ttk attrs st (xs ++ c :: ys) = parseCells ttk attrs st (xs ++ ys) := by
  rw [parseCells_append, parseCells_append]
  cases parseCells ttk attrs st xs with
  | error e => rfl
  | ok st1 =>
      show parseCells ttk attrs st1 (c :: ys) = parseCells ttk attrs st1 ys
      simp [parseCells, processCell_group ttk attrs st1 c h]

theorem parseRows_append (ttk : String) (attrs : List String)
    (st : TheadRes × Nat) (xs ys : List HtmlElement) :
    parseRows ttk attrs st (xs ++ ys) =
      match parseRows ttk attrs st xs with
      | .error e => .error e
      | .ok st1 => parseRows ttk attrs st1 ys := by
  induction xs generalizing st with
  | nil => simp [parseRows]
  | cons tr trs ih =>
      simp only [List.cons_append, parseRows]
      cases parseCells ttk attrs st tr.iterchildren with
      | error e => rfl
      | ok st1 => exact ih st1

theorem collect_tr_append (a b : List Fragment) :
    collect_tr (a ++ b) = collect_tr a ++ collect_tr b := by
  induction a with
  | nil => simp [collect_tr]
  | cons f fs ih =>
      cases f with
      | str s => simpa [collect_tr] using ih
      | elem e => simp [collect_tr, ih]

theorem collect_tr_tr_cons (cells : List HtmlElement) (rest : List Fragment) :
    collect_tr (mk_tr cells :: rest) =
      HtmlElement.mk "tr" none [] cells :: collect_tr rest := by
  simp [collect_tr, mk_tr, HtmlElement.tag]

/-- Claim C5: a header cell whose span attribute is present with value
greater than 1 contributes no key to any part of the resulting index map
and does not increment the running 1-based column counter: parsing a
header with the group-label cell present equals parsing the same header
with the cell removed, so the numbering of subsequent genuine header
cells is unaffected. -/
theorem group_label_cells_are_transparent
    (ttk : String) (attrs : List String) (pre post : List Fragment)
    (xs ys : List HtmlElement) (c : HtmlElement) (h : is_group_label c) :
    parse_table_thead (pre ++ mk_tr (xs ++ c :: ys) :: post) ttk attrs =
      parse_table_thead (pre ++ mk_tr (xs ++ ys) :: post) ttk attrs := by
  have hcol : ∀ cells, collect_tr (pre ++ mk_tr cells :: post) =
      collect_tr pre ++ HtmlElement.mk "tr" none [] cells :: collect_tr post := by
    intro cells
    rw [collect_tr_append, collect_tr_tr_cons]
  unfold parse_table_thead
  rw [hcol, hcol]
  have hne : ∀ cells, (collect_tr pre ++
      HtmlElement.mk "tr" none [] cells :: collect_tr post).isEmpty = false := by
    intro cells
    simp [List.isEmpty_eq_false_iff_exists_mem]
  rw [hne, hne]
  simp only [Bool.false_eq_true, if_false]
  rw [parseRows_append, parseRows_append]
  cases parseRows ttk attrs ([], 1) (collect_tr pre) with
  | error e => rfl
  | ok st1 =>
      show (match parseRows ttk attrs st1
              (HtmlElement.mk "tr" none [] (xs ++ c :: ys) :: collect_tr post) with
            | .error e => Except.error e
            | .ok st => Except.ok st.1) = _
      simp only [parseRows, HtmlElement.iterchildren]
      rw [parseCells_group_skip ttk attrs st1 xs ys c h]

/-- Witness for C5: a concrete header with a colspan=3 group cell parses
exactly as the same header without it. -/
theorem group_label_cells_are_transparent_witness :
    parse_table_thead
      [mk_tr [.mk "th" (some "A") [] [],
              .mk "th" (some "Group") [("colspan", "3")] [],
              .mk "th" (some "B") [] []]] "text" [] =
      parse_table_thead
        [mk_tr [.mk "th" (some "A") [] [], .mk "th" (some "B") [] []]] "text" [] :=
  group_label_cells_are_transparent "text" [] [] []
    [.mk "th" (some "A") [] []] [.mk "th" (some "B") [] []]
    (.mk "th" (some "Group") [("colspan", "3")] [])
    ⟨"3", 3, rfl, by decide, rfl, by decide⟩

/-- Claim C6: parsing the header row ["#", "Name", "Flag"], where "#"
carries psortablecolumn=id and "Name" carries psortablecolumn=name and
ng-reflect-field=name, with both attribute names tracked, yields exactly
the index map text: #->1, Name->2, Flag->3; psortablecolumn: id->1,
name->2; ng-reflect-field: name->2. -/
theorem thead_example_index_map :
    parse_table_thead
      [mk_tr [.mk "th" (some "#") [("psortablecolumn", "id")] [],
              .mk "th" (some "Name")
                [("psortablecolumn", "name"), ("ng-reflect-field", "name")] [],
              .mk "th" (some "Flag") [] []]]
      "text" ["psortablecolumn", "ng-reflect-field"] =
      .ok [("text", [("#", 1), ("Name", 2), ("Flag", 3)]),
           ("psortablecolumn", [("id", 1), ("name", 2)]),
           ("ng-reflect-field", [("name", 2)])] := by
  rfl

/-- Claim C10: a genuine header cell with no visible text is recorded
under the literal string key "None" (text normalization maps absent text
to the string "None"), and a header containing two textless genuine
cells raises the duplicate-header-text error. -/
theorem textless_header_cells_use_key_None :
    format_tag_text none = "None"
    ∧ (∀ (as : List (String × String)) (res : TheadRes) (idx : Nat),
        as.lookup "colspan" = none →
        resGet2 res "text" "None" = none →
        processCell "text" [] (res, idx) (.mk "th" none as []) =
          .ok (resInsert res "text" "None" idx, idx + 1))
    ∧ parse_table_thead
        [mk_tr [.mk "th" none [] [], .mk "th" none [] []]] "text" [] =
        .error "Duplicate value=None of th.text in header of table" := by
  refine ⟨rfl, ?_, rfl⟩
  intro as res idx hcol hres
  have hfmt : format_tag_text none = "None" := rfl
  unfold processCell
  simp only [HtmlElement.get, HtmlElement.items, hcol]
  simp [HtmlElement.tag, HtmlElement.text, hfmt, hres]

/-- Witness for C10: the universal conjunct applied at a concrete cell. -/
theorem textless_header_cells_use_key_None_witness :
    processCell "text" [] ([], 5) (.mk "th" none [("id", "x")] []) =
      .ok ([("text", [("None", 5)])], 6) :=
  textless_header_cells_use_key_None.2.1 [("id", "x")] [] 5 rfl rfl

/-- Claim C7 (code bug): `get_index_by_value` does return the 1-based
position of the first exact match, but on a missing value the
`ValueError` of `list.index` propagates: the `except TypeError` clause
never fires, so the documented `TableElementNotFound` is never raised. -/
theorem get_index_by_value_missing_raises_ValueError :
    get_index_by_value [some "a", some "b"] "a" = .ok 1
    ∧ get_index_by_value [some "a", some "b", some "a"] "a" = .ok 1
    ∧ get_index_by_value [some "a", some "b"] "b" = .ok 2
    ∧ get_index_by_value [some "a", some "b"] "c" =
        .error (.valueError "is not in list") :=
  ⟨rfl, rfl, rfl, rfl⟩

/-- Counterexample to claim C8: header-index-map lookups of a Column do
not raise the distinct column-missing error: an attribute-based miss
returns `None` without raising at all, and a visible-text miss raises
the generic `BaseTableException` rather than `TableColumnNotFound`. -/
theorem column_lookup_errors_counterexample :
    get_column_index [("text", [("A", 1)])] "text"
      ⟨"A", some "foo", some "bar"⟩ = .ok none
    ∧ get_column_index [("text", [("A", 1)])] "text"
        ⟨"B", none, none⟩ =
        .error (.baseTableException "Cannot find index of column in table") :=
  ⟨rfl, rfl⟩

/-- Claim C8 as amended: row lookups raise `TableRowNotFound`,
out-of-range column-value lookups raise `TableColumnNotFound`, generic
element lookups raise `TableElementNotFound`; but header-index-map
lookups of a Column descriptor raise the generic `BaseTableException`
on a visible-text miss and return `None` without raising on an
attribute-based miss. -/
theorem table_lookup_error_taxonomy :
    (∀ (find_element : String → Except PyError HtmlElement)
       (tv : String) (idx : Nat) (fh : Bool) (m : String),
       find_element (tv ++ (if fh then get_header_xpath idx
                            else get_body_row_xpath idx)) =
         .error (.noSuchElementException m) →
       get_row_values_by_index find_element tv idx fh =
         .error (.tableRowNotFound
           ("Row with index " ++ toString idx ++ " not found in table")))
    ∧ (∀ (find_elements : String → Except PyError (List HtmlElement))
         (tv : String) (rcc idx : Nat),
         idx > rcc →
         get_column_values_by_index find_elements tv rcc idx =
           .error (.tableColumnNotFound
             ("Column with index " ++ toString idx ++ " not exists in table")))
    ∧ (∀ (find_element : String → Except PyError HtmlElement)
         (tv xp : String) (m : String),
         find_element (tv ++ xp) = .error (.noSuchElementException m) →
         get_item_by_xpath find_element tv xp =
           .error (.tableElementNotFound
             ("Element not found by xpath value: " ++ (tv ++ xp))))
    ∧ (∀ (ci : TheadRes) (ttk name : String),
         resGet2 ci ttk name = none →
         get_column_index ci ttk ⟨name, none, none⟩ =
           .error (.baseTableException "Cannot find index of column in table"))
    ∧ (∀ (ci : TheadRes) (ttk vn an av : String),
         av ≠ "" →
         get_column_index ci ttk ⟨vn, some an, some av⟩ =
           .ok (resGet2 ci an av)) := by
  refine ⟨?_, ?_, ?_, ?_, ?_⟩
  · intro find_element tv idx fh m hfind
    unfold get_row_values_by_index get_item_by_xpath
    rw [hfind]
    simp [PyError.is_no_such_element, PyError.is_table_element_not_found]
  · intro find_elements tv rcc idx hgt
    unfold get_column_values_by_index
    simp [hgt]
  · intro find_element tv xp m hfind
    unfold get_item_by_xpath
    rw [hfind]
    simp [PyError.is_no_such_element]
  · intro ci ttk name hmiss
    unfold get_column_index
    simp [truthy_opt, hmiss]
  · intro ci ttk vn an av hne
    unfold get_column_index
    simp [truthy_opt, hne, resGet2_opt]

/-- Witness for the amended C8: the five error kinds at concrete inputs. -/
theorem table_lookup_error_taxonomy_witness :
    get_row_values_by_index (fun _ => .error (.noSuchElementException "x"))
      "//p-table" 2 false =
      .error (.tableRowNotFound "Row with index 2 not found in table")
    ∧ get_column_values_by_index (fun _ => .ok []) "//p-table" 3 4 =
        .error (.tableColumnNotFound "Column with index 4 not exists in table")
    ∧ get_item_by_xpath (fun _ => .error (.noSuchElementException "x"))
        "//p-table" "//tbody" =
        .error (.tableElementNotFound
          "Element not found by xpath value: //p-table//tbody")
    ∧ get_column_index [("text", [("A", 1)])] "text" ⟨"B", none, none⟩ =
        .error (.baseTableException "Cannot find index of column in table")
    ∧ get_column_index [("text", [("A", 1)])] "text" ⟨"A", some "foo", some "bar"⟩ =
        .ok none :=
  ⟨table_lookup_error_taxonomy.1 _ "//p-table" 2 false "x" rfl,
   table_lookup_error_taxonomy.2.1 _ "//p-table" 3 4 (by decide),
   table_lookup_error_taxonomy.2.2.1 _ "//p-table" "//tbody" "x" rfl,
   table_lookup_error_taxonomy.2.2.2.1 [("text", [("A", 1)])] "text" "B" rfl,
   table_lookup_error_taxonomy.2.2.2.2 [("text", [("A", 1)])] "text" "A" "foo" "bar"
     (by decide)⟩

theorem cacheInsert_lookup (c : ElementCache) (k : String) (v : Nat) :
    (cacheInsert c k v).lookup k = some v := by
  induction c with
  | nil => simp [cacheInsert, List.lookup]
  | cons p rest ih =>
      obtain ⟨k0, v0⟩ := p
      by_cases hk : k0 = k
      · simp [cacheInsert, hk, List.lookup]
      · have hbe : (k == k0) = false := beq_eq_false_iff_ne.mpr (Ne.symm hk)
        simp [cacheInsert, hk, List.lookup, hbe, ih]

theorem descriptor_get_cached (find : Except PyError Nat) (name : String)
    (st : PageState) (h : Nat) (hop : st.opened = true)
    (hhit : st.cache.lookup name = some h) :
    descriptor_get find name st = .ok (h, st) := by
  unfold descriptor_get
  rw [hop, hhit]
  rfl

theorem descriptor_get_miss (find : Except PyError Nat) (name : String)
    (st : PageState) (h : Nat) (st1 : PageState)
    (hmiss : st.cache.lookup name = none)
    (hres : descriptor_get find name st = .ok (h, st1)) :
    st.opened = true ∧ find = .ok h ∧
      st1 = { st with queryCount := st.queryCount + 1,
                      cache := cacheInsert st.cache name h } := by
  unfold descriptor_get at hres
  by_cases hop : st.opened = true
  · rw [hop, if_pos rfl, hmiss] at hres
    unfold find_element_q at hres
    cases find with
    | error e => simp at hres
    | ok h0 =>
        simp only [Except.ok.injEq, Prod.mk.injEq] at hres
        obtain ⟨hh, hst⟩ := hres
        subst hh
        exact ⟨hop, rfl, hst.symm⟩
  · rw [Bool.not_eq_true] at hop
    rw [hop] at hres
    simp at hres

/-- Claim C1: for a single-cardinality binding, the first successful
resolve of a slot issues exactly one underlying locator query, and every
subsequent access of the slot in the same epoch returns the memoized
handle with no change of state — in particular no further query: one
query total per epoch. -/
theorem single_binding_one_query_per_epoch
    (find : Except PyError Nat) (name : String) (st : PageState)
    (h : Nat) (st1 : PageState)
    (hmiss : st.cache.lookup name = none)
    (hres : descriptor_get find name st = .ok (h, st1)) :
    st1.queryCount = st.queryCount + 1
    ∧ st1.cache.lookup name = some h
    ∧ ∀ n, access_iter find name st n = .ok (h, st1) := by
  obtain ⟨hop, hfind, hst1⟩ := descriptor_get_miss find name st h st1 hmiss hres
  have hq : st1.queryCount = st.queryCount + 1 := by rw [hst1]
  have hcache : st1.cache.lookup name = some h := by
    rw [hst1]
    exact cacheInsert_lookup st.cache name h
  have hop1 : st1.opened = true := by rw [hst1]; exact hop
  refine ⟨hq, hcache, ?_⟩
  intro n
  induction n with
  | zero => exact hres
  | succ n ih =>
      unfold access_iter
      rw [ih]
      exact descriptor_get_cached find name st1 h hop1 hcache

/-- Witness for C1 at a concrete page state: the first access fills the
cache with one query, the fourth access still returns the same handle
and the same state. -/
theorem single_binding_one_query_per_epoch_witness :
    (PageState.mk true [("btn", 42)] [1] 1 1).queryCount =
      (PageState.mk true [] [1] 1 0).queryCount + 1
    ∧ (PageState.mk true [("btn", 42)] [1] 1 1).cache.lookup "btn" = some 42
    ∧ access_iter (.ok 42) "btn" (PageState.mk true [] [1] 1 0) 3 =
        .ok (42, PageState.mk true [("btn", 42)] [1] 1 1) := by
  have hmain := single_binding_one_query_per_epoch (.ok 42) "btn"
    (PageState.mk true [] [1] 1 0) 42 (PageState.mk true [("btn", 42)] [1] 1 1)
    rfl rfl
  exact ⟨hmain.1, hmain.2.1, hmain.2.2 3⟩

/-- Claim C2: opening a URL, opening a redirect URL, and an actual tab
refocus (more than one open tab) each empty the binding cache entirely,
and after such a navigation the next successful access of any slot
issues a fresh underlying query. -/
theorem navigation_empties_binding_cache (st : PageState) :
    (open_url st).cache = []
    ∧ (open_redirect_url st).cache = []
    ∧ (st.tabs.length > 1 →
        (focus_on_last_opened_tab st).cache = []
        ∧ (focus_on_first_opened_tab st).cache = [])
    ∧ (∀ (find : Except PyError Nat) (name : String) (h : Nat) (st1 : PageState),
        descriptor_get find name (open_url st) = .ok (h, st1) →
        st1.queryCount = (open_url st).queryCount + 1) := by
  refine ⟨rfl, rfl, ?_, ?_⟩
  · intro htabs
    constructor
    · unfold focus_on_last_opened_tab
      rw [if_pos htabs]
    · unfold focus_on_first_opened_tab
      rw [if_pos htabs]
  · intro find name h st1 hres
    have hmiss : (open_url st).cache.lookup name = none := rfl
    obtain ⟨_, _, hst1⟩ := descriptor_get_miss find name (open_url st) h st1 hmiss hres
    rw [hst1]

/-- Witness for C2: a page with two tabs and a filled cache, every
navigation operation applied to it, and a fresh access after `open`. -/
theorem navigation_empties_binding_cache_witness :
    (open_url (PageState.mk true [("btn", 7)] [1, 2] 2 5)).cache = []
    ∧ (open_redirect_url (PageState.mk true [("btn", 7)] [1, 2] 2 5)).cache = []
    ∧ ((focus_on_last_opened_tab (PageState.mk true [("btn", 7)] [1, 2] 2 5)).cache = []
        ∧ (focus_on_first_opened_tab (PageState.mk true [("btn", 7)] [1, 2] 2 5)).cache = [])
    ∧ (descriptor_get (.ok 9) "btn" (open_url (PageState.mk true [("btn", 7)] [1, 2] 2 5)) =
          .ok (9, PageState.mk true [("btn", 9)] [1, 2] 2 6) →
        (PageState.mk true [("btn", 9)] [1, 2] 2 6).queryCount =
          (open_url (PageState.mk true [("btn", 7)] [1, 2] 2 5)).queryCount + 1) := by
  have hmain := navigation_empties_binding_cache (PageState.mk true [("btn", 7)] [1, 2] 2 5)
  exact ⟨hmain.1, hmain.2.1, hmain.2.2.1 (by decide),
         hmain.2.2.2 (.ok 9) "btn" 9 (PageState.mk true [("btn", 9)] [1, 2] 2 6)⟩

/-- Claim C3: a proxied operation whose first attempt fails with a stale
reference performs exactly one re-resolution and exactly one retry; a
successful retry's result reaches the caller with no visible error, and
a second staleness propagates with no further retry. -/
theorem stale_recovery_exactly_one_retry :
    (∀ (α : Type) (op : Nat → OpOutcome α) (find : Except PyError Nat)
       (attr : Option String) (cache : ElementCache)
       (m : String) (h : Nat) (cache2 : ElementCache) (a : α),
       op 0 = .stale m →
       reload_target_object find attr cache = (.ok h, cache2) →
       op 1 = .ok a →
       catch_not_attach_to_session op find attr cache = (.ok a, cache2, 1, 2))
    ∧ (∀ (α : Type) (op : Nat → OpOutcome α) (find : Except PyError Nat)
         (attr : Option String) (cache : ElementCache)
         (m : String) (h : Nat) (cache2 : ElementCache) (m2 : String),
         op 0 = .stale m →
         reload_target_object find attr cache = (.ok h, cache2) →
         op 1 = .stale m2 →
         catch_not_attach_to_session op find attr cache =
           (.error (.staleElementReferenceException m2), cache2, 1, 2)) := by
  constructor
  · intro α op find attr cache m h cache2 a h0 hrel h1
    unfold catch_not_attach_to_session
    rw [h0, hrel, h1]
  · intro α op find attr cache m h cache2 m2 h0 hrel h1
    unfold catch_not_attach_to_session
    rw [h0, hrel, h1]

/-- Witness for C3: a concrete operation that is stale once then
succeeds, and one that is stale twice. -/
theorem stale_recovery_exactly_one_retry_witness :
    catch_not_attach_to_session
      (fun i => if i = 0 then OpOutcome.stale "gone" else OpOutcome.ok 11)
      (.ok 5) (some "btn") [("btn", 3)] =
      (.ok 11, [("btn", 5)], 1, 2)
    ∧ catch_not_attach_to_session
        (fun _ => (OpOutcome.stale "gone" : OpOutcome Nat))
        (.ok 5) (some "btn") [("btn", 3)] =
        (.error (.staleElementReferenceException "gone"), [("btn", 5)], 1, 2) :=
  ⟨stale_recovery_exactly_one_retry.1 Nat _ (.ok 5) (some "btn") [("btn", 3)]
     "gone" 5 [("btn", 5)] 11 rfl rfl rfl,
   stale_recovery_exactly_one_retry.2 Nat _ (.ok 5) (some "btn") [("btn", 3)]
     "gone" 5 [("btn", 5)] "gone" rfl rfl rfl⟩

/-- Claim C4: a first-attempt not-found fault propagates immediately and
unretried; any other first-attempt browser-automation failure (other
than staleness) is wrapped, without retry, into the domain error
carrying the cache-slot name when known and the generic marker
otherwise. -/
theorem not_found_propagates_others_wrapped :
    (∀ (α : Type) (op : Nat → OpOutcome α) (find : Except PyError Nat)
       (attr : Option String) (cache : ElementCache) (m : String),
       op 0 = .noSuchElement m →
       catch_not_attach_to_session op find attr cache =
         (.error (.noSuchElementException m), cache, 0, 1))
    ∧ (∀ (α : Type) (op : Nat → OpOutcome α) (find : Except PyError Nat)
         (attr : Option String) (cache : ElementCache) (m : String),
         op 0 = .otherWebDriverError m →
         catch_not_attach_to_session op find attr cache =
           (.error (.webElementProxyException m (attr_or_default attr)), cache, 0, 1))
    ∧ (∀ n : String, n ≠ "" → attr_or_default (some n) = n)
    ∧ attr_or_default none = "Object didnt attach to Page" := by
  refine ⟨?_, ?_, ?_, rfl⟩
  · intro α op find attr cache m h0
    unfold catch_not_attach_to_session
    rw [h0]
  · intro α op find attr cache m h0
    unfold catch_not_attach_to_session
    rw [h0]
  · intro n hn
    simp [attr_or_default, hn]

/-- Witness for C4: not-found and a generic driver failure at concrete
inputs, with and without a known slot name. -/
theorem not_found_propagates_others_wrapped_witness :
    catch_not_attach_to_session
      (fun _ => (OpOutcome.noSuchElement "missing" : OpOutcome Nat))
      (.ok 5) (some "btn") [] =
      (.error (.noSuchElementException "missing"), [], 0, 1)
    ∧ catch_not_attach_to_session
        (fun _ => (OpOutcome.otherWebDriverError "boom" : OpOutcome Nat))
        (.ok 5) (some "btn") [] =
        (.error (.webElementProxyException "boom" (attr_or_default (some "btn"))), [], 0, 1)
    ∧ attr_or_default (some "btn") = "btn" :=
  ⟨not_found_propagates_others_wrapped.1 Nat _ (.ok 5) (some "btn") [] "missing" rfl,
   not_found_propagates_others_wrapped.2.1 Nat _ (.ok 5) (some "btn") [] "boom" rfl,
   not_found_propagates_others_wrapped.2.2.1 "btn" (by decide)⟩

theorem getLastD_ne_nil (ys : List Nat) (d d1 : Nat) (h : ys ≠ []) :
    ys.getLastD d = ys.getLastD d1 := by
  cases ys with
  | nil => exact absurd rfl h
  | cons y ys1 => rw [List.getLastD_cons, List.getLastD_cons]

theorem getLastD_append (xs ys : List Nat) (d : Nat) (h : ys ≠ []) :
    (xs ++ ys).getLastD d = ys.getLastD d := by
  induction xs generalizing d with
  | nil => rfl
  | cons x xs1 ih =>
      rw [List.cons_append, List.getLastD_cons]
      exact (ih x).trans (getLastD_ne_nil ys x d h)

/-- Claim C9: `click()` first waits for the element to be clickable (a
click is only performed in the clickable case; otherwise the wait's
timeout propagates and the state is untouched), and when the click
opened new tabs, focus moves to the most-recently-opened tab and every
other tab is closed, leaving exactly one open tab. -/
theorem click_focuses_last_opened_tab
    (opensTabs : List Nat) (st : PageState)
    (htabs : st.tabs ≠ []) (hnew : opensTabs ≠ []) :
    proxy_click true opensTabs true st =
      .ok { st with cache := [], tabs := [opensTabs.getLastD 0],
                    focused := opensTabs.getLastD 0 }
    ∧ [opensTabs.getLastD 0].length = 1
    ∧ (∀ b, proxy_click false opensTabs b st =
          .error (.timeoutException "element not clickable")) := by
  refine ⟨?_, rfl, fun b => rfl⟩
  have hlen : (st.tabs ++ opensTabs).length > 1 := by
    have h1 : 1 ≤ st.tabs.length := by
      cases hts : st.tabs with
      | nil => exact absurd hts htabs
      | cons t ts => simp
    have h2 : 1 ≤ opensTabs.length := by
      cases hos : opensTabs with
      | nil => exact absurd hos hnew
      | cons o os => simp
    rw [List.length_append]
    omega
  have hstep : proxy_click true opensTabs true st =
      .ok (focus_on_last_opened_tab { st with tabs := st.tabs ++ opensTabs }) := rfl
  have hfoc : focus_on_last_opened_tab { st with tabs := st.tabs ++ opensTabs } =
      { st with cache := [], tabs := [(st.tabs ++ opensTabs).getLastD 0],
                focused := (st.tabs ++ opensTabs).getLastD 0 } := by
    unfold focus_on_last_opened_tab
    exact if_pos hlen
  rw [hstep, hfoc, getLastD_append st.tabs opensTabs 0 hnew]

/-- Witness for C9: a click on a page with one tab that opens two tabs
ends focused on the newest tab with the cache emptied, and the
non-clickable case times out. -/
theorem click_focuses_last_opened_tab_witness :
    proxy_click true [2, 3] true (PageState.mk true [("btn", 7)] [1] 1 4) =
      .ok (PageState.mk true [] [3] 3 4)
    ∧ proxy_click false [2, 3] true (PageState.mk true [("btn", 7)] [1] 1 4) =
        .error (.timeoutException "element not clickable") := by
  have hmain := click_focuses_last_opened_tab [2, 3]
    (PageState.mk true [("btn", 7)] [1] 1 4) (by decide) (by decide)
  exact ⟨hmain.1, hmain.2.2 true⟩

end ComboE2E
